import Mathlib

/-!
Verification development for the tonic-metrics repository: a shallow
embedding of the server and client metrics middlewares (src/lib.rs,
src/client.rs) and proofs about their observable behavior.

Modelling conventions:
* Rust strings are Lean `String`s; byte-index slicing in the source always
  happens at `'/'` boundaries (an ASCII character), so slicing at the
  corresponding character positions of the char list `String.data` is exact.
* The asynchronous `call` future is embedded as a pure function from the
  inner service result (`Except err resp`) and the elapsed time to the
  outputs of the call. The server middleware's only effect is the list of
  histogram observations it emits, so `serverCall` returns (result,
  observations). The client middleware additionally writes one line to
  stdout on every call (the `println!` at src/client.rs line 96, which
  Debug-formats the request URI), so `clientCall` returns a record that
  also carries the printed events; each event is recorded as the printed
  URI's components (path, host), abstracting the exact Debug text.
* `std::time::Duration` is represented by its total length in nanoseconds
  (a `Nat`); `Duration::as_millis` is truncating division by 10^6. The
  `as f64` cast is exact for any realistic duration (below 2^53 ms), so the
  recorded value is modelled by that natural number of whole milliseconds.
-/

namespace TonicMetrics

/-- Metric name constant `RPC_SERVER_DURATION` from src/lib.rs. -/
def RPC_SERVER_DURATION : String := "rpc.server.duration"

/-- Modelled from the spec: the constant `RPC_CLIENT_DURATION` referenced by
src/client.rs is declared in a part of lib.rs not present under src/; §6 of
the spec fixes the emitted metric names bit-exactly as `rpc.client.duration`. -/
def RPC_CLIENT_DURATION : String := "rpc.client.duration"

/-- Index of the first `'/'` in a character list, mirroring Rust
`str::find('/')` (the byte index it returns is always a char boundary and
the characters before it are exactly the chars before that index). -/
def findSlash : List Char → Option Nat
  | [] => none
  | c :: cs => if c = '/' then some 0 else (findSlash cs).map (fun p => p + 1)

/-- Separator position computed in `ServerMetricsMiddleware::call`
(src/lib.rs lines 61-66) and identically in `ClientMetricsMiddleware::call`
(src/client.rs lines 75-80): when the first character of the path is `'/'`
and the remainder contains a `'/'` at index `p`, the separator is at index
`p + 1` of the full path (the source wraps it in `NonZeroUsize`); in every
other case there is no separator. -/
def service_method_separator (path : String) : Option Nat :=
  match path.data.head? with
  | some c =>
    if c = '/' then (findSlash (path.data.drop 1)).map (fun p => p + 1)
    else none
  | none => none

/-- Route-path parsing from `ServerMetricsMiddleware::call` (src/lib.rs
lines 68-75) and identically `ClientMetricsMiddleware::call` (src/client.rs
lines 82-89): with a separator at index `sep`, the rpc service is
`path[1..sep]` and the rpc method is `path[sep+1..]`; with no separator the
service is empty and the method is the whole path. Returns
(rpc_service, rpc_method). -/
def parse_path (path : String) : String × String :=
  match service_method_separator path with
  | some sep => (⟨(path.data.take sep).drop 1⟩, ⟨path.data.drop (sep + 1)⟩)
  | none => ("", path)

/-- Predicate for the `Some` branch of the separator match: the path had a
leading `'/'` and a second `'/'` was found, so parsing succeeded. -/
def route_parsed (path : String) : Bool :=
  (service_method_separator path).isSome

/-- HTTP versions distinguished by the middlewares; `other` stands for any
version value not matched by the named constants (the `_` arm in the
source match). -/
inductive Version where
  | http09
  | http10
  | http11
  | h2
  | h3
  | other
  deriving DecidableEq, Repr

/-- Function `network_protocol_version` (src/lib.rs lines 108-119 and
src/client.rs lines 131-142): maps the request HTTP version to its display
string, or `none` for an unrecognized version. -/
def network_protocol_version (v : Version) : Option String :=
  match v with
  | .http09 => some "0.9"
  | .http10 => some "1.0"
  | .http11 => some "1.1"
  | .h2 => some "2"
  | .h3 => some "3"
  | .other => none

/-- HTTP status predicate `StatusCode::is_client_error` from the http crate:
the code is in the 4xx range. -/
def is_client_error (s : Nat) : Bool := 400 ≤ s && s < 500

/-- HTTP status predicate `StatusCode::is_server_error` from the http crate:
the code is in the 5xx range. -/
def is_server_error (s : Nat) : Bool := 500 ≤ s && s < 600

/-- Canonical reason phrase table of `StatusCode::canonical_reason` from the
http crate; `none` for codes without a registered reason. -/
def canonical_reason (s : Nat) : Option String :=
  match s with
  | 100 => some "Continue"
  | 101 => some "Switching Protocols"
  | 102 => some "Processing"
  | 200 => some "OK"
  | 201 => some "Created"
  | 202 => some "Accepted"
  | 203 => some "Non-Authoritative Information"
  | 204 => some "No Content"
  | 205 => some "Reset Content"
  | 206 => some "Partial Content"
  | 207 => some "Multi-Status"
  | 208 => some "Already Reported"
  | 226 => some "IM Used"
  | 300 => some "Multiple Choices"
  | 301 => some "Moved Permanently"
  | 302 => some "Found"
  | 303 => some "See Other"
  | 304 => some "Not Modified"
  | 305 => some "Use Proxy"
  | 307 => some "Temporary Redirect"
  | 308 => some "Permanent Redirect"
  | 400 => some "Bad Request"
  | 401 => some "Unauthorized"
  | 402 => some "Payment Required"
  | 403 => some "Forbidden"
  | 404 => some "Not Found"
  | 405 => some "Method Not Allowed"
  | 406 => some "Not Acceptable"
  | 407 => some "Proxy Authentication Required"
  | 408 => some "Request Timeout"
  | 409 => some "Conflict"
  | 410 => some "Gone"
  | 411 => some "Length Required"
  | 412 => some "Precondition Failed"
  | 413 => some "Payload Too Large"
  | 414 => some "URI Too Long"
  | 415 => some "Unsupported Media Type"
  | 416 => some "Range Not Satisfiable"
  | 417 => some "Expectation Failed"
  | 418 => some "I\x27m a teapot"
  | 421 => some "Misdirected Request"
  | 422 => some "Unprocessable Entity"
  | 423 => some "Locked"
  | 424 => some "Failed Dependency"
  | 426 => some "Upgrade Required"
  | 428 => some "Precondition Required"
  | 429 => some "Too Many Requests"
  | 431 => some "Request Header Fields Too Large"
  | 451 => some "Unavailable For Legal Reasons"
  | 500 => some "Internal Server Error"
  | 501 => some "Not Implemented"
  | 502 => some "Bad Gateway"
  | 503 => some "Service Unavailable"
  | 504 => some "Gateway Timeout"
  | 505 => some "HTTP Version Not Supported"
  | 506 => some "Variant Also Negotiates"
  | 507 => some "Insufficient Storage"
  | 508 => some "Loop Detected"
  | 510 => some "Not Extended"
  | 511 => some "Network Authentication Required"
  | _ => none

/-- Display form of `StatusCode` from the http crate, as produced by
`response.status().to_string()` in both middlewares: the numeric code, a
space, then the canonical reason phrase (or a fixed placeholder). -/
def status_display (s : Nat) : String :=
  toString s ++ " " ++ (canonical_reason s).getD "<unknown status code>"

/-- Label list built by `ServerMetricsMiddleware::call` (src/lib.rs lines
85-99), in exact push order: the three fixed labels, rpc.method,
rpc.service, then network.protocol.version when resolvable, then error.type
when the response status is a client or server error. -/
def server_labels (rpc_method rpc_service : String) (version : Option String)
    (status : Nat) : List (String × String) :=
  [("rpc.system", "grpc"),
   ("network.protocol.name", "http"),
   ("network.transport", "tcp"),
   ("rpc.method", rpc_method),
   ("rpc.service", rpc_service)]
  ++ (match version with
      | some v => [("network.protocol.version", v)]
      | none => [])
  ++ (if is_client_error status || is_server_error status then
        [("error.type", status_display status)]
      else [])

/-- Label list built by `ClientMetricsMiddleware::call` (src/client.rs lines
106-122): same as the server list but with server.address pushed right after
rpc.service. -/
def client_labels (rpc_method rpc_service server_address : String)
    (version : Option String) (status : Nat) : List (String × String) :=
  [("rpc.system", "grpc"),
   ("network.protocol.name", "http"),
   ("network.transport", "tcp"),
   ("rpc.method", rpc_method),
   ("rpc.service", rpc_service),
   ("server.address", server_address)]
  ++ (match version with
      | some v => [("network.protocol.version", v)]
      | none => [])
  ++ (if is_client_error status || is_server_error status then
        [("error.type", status_display status)]
      else [])

/-- Address canonicalization in `ClientMetricsMiddleware::with_server_address`
(src/client.rs lines 33-43): strip a leading `http://` (7 bytes) or, failing
that, a leading `https://` (8 bytes), otherwise keep the address as is.
`starts_with` on a Rust str with an ASCII pattern is prefix on the char
list. -/
def canonicalize_addr (addr : String) : String :=
  if "http://".data.isPrefixOf addr.data then ⟨addr.data.drop 7⟩
  else if "https://".data.isPrefixOf addr.data then ⟨addr.data.drop 8⟩
  else addr

/-- Stored `server_address` field produced by
`ClientMetricsMiddleware::with_server_address` (src/client.rs lines 26-48):
the supplied address canonicalized, or `none` when no address was given. -/
def with_server_address (addr : Option String) : Option String :=
  addr.map canonicalize_addr

/-- Per-call server-address resolution in `ClientMetricsMiddleware::call`
(src/client.rs lines 91-94): the stored construction-time address when
present, otherwise the request URI host, defaulting to "unknown". -/
def resolve_server_address (stored : Option String) (uriHost : Option String) :
    String :=
  match stored with
  | some a => a
  | none => uriHost.getD "unknown"

/-- `Duration::as_millis` of a duration of `nanos` nanoseconds: whole
milliseconds, fractional part truncated. -/
def as_millis (nanos : Nat) : Nat := nanos / 1000000

/-- Request data the middlewares inspect: the URI path, the HTTP version,
and (used by the client middleware only) the URI host. -/
structure HttpRequest where
  path : String
  version : Version
  uriHost : Option String

/-- One histogram observation: metric name, the ordered label list, and the
recorded value in whole milliseconds (the `f64` value recorded is this
integer exactly; see the header note). -/
structure Observation where
  metric : String
  labels : List (String × String)
  valueMillis : Nat
  deriving Repr, DecidableEq

/-- Embedding of `ServerMetricsMiddleware::call` (src/lib.rs lines 53-105):
parse the route path and resolve the protocol version from the request, run
the inner service, and on a transport error propagate it with no
observation, while on a response record exactly one `rpc.server.duration`
observation of the elapsed milliseconds and return the response unchanged.
`status` extracts the status code from a response of type `ρ`;
`elapsedNanos` is the wall-clock time the inner call took. -/
def serverCall {ε ρ : Type} (status : ρ → Nat) (req : HttpRequest)
    (elapsedNanos : Nat) (innerResult : Except ε ρ) :
    Except ε ρ × List Observation :=
  let sm := parse_path req.path
  let version := network_protocol_version req.version
  match innerResult with
  | .error e => (.error e, [])
  | .ok resp =>
    (.ok resp,
     [{ metric := RPC_SERVER_DURATION,
        labels := server_labels sm.2 sm.1 version (status resp),
        valueMillis := as_millis elapsedNanos }])

/-- Outputs of one client call: the result handed back to the caller, the
histogram observations emitted, and the lines written to stdout by the
`println!` at src/client.rs line 96, each recorded as the printed request
URI's components (path, host) — the exact Debug text of the URI is
abstracted, only the event and what it reveals are kept. -/
structure ClientCallOutput (ε ρ : Type) where
  result : Except ε ρ
  observations : List Observation
  printed : List (String × Option String)

/-- Embedding of `ClientMetricsMiddleware::call` (src/client.rs lines
67-128): identical to the server call except that the label list also
carries the resolved server address, the metric is `rpc.client.duration`,
and the request URI is unconditionally printed to stdout (src/client.rs
line 96) before the inner service is awaited — on the error path as well.
`stored` is the middleware's canonicalized construction-time address
field. -/
def clientCall {ε ρ : Type} (status : ρ → Nat) (stored : Option String)
    (req : HttpRequest) (elapsedNanos : Nat) (innerResult : Except ε ρ) :
    ClientCallOutput ε ρ :=
  let sm := parse_path req.path
  let server := resolve_server_address stored req.uriHost
  let printed := [(req.path, req.uriHost)]
  let version := network_protocol_version req.version
  match innerResult with
  | .error e => ⟨.error e, [], printed⟩
  | .ok resp =>
    ⟨.ok resp,
     [{ metric := RPC_CLIENT_DURATION,
        labels := client_labels sm.2 sm.1 server version (status resp),
        valueMillis := as_millis elapsedNanos }],
     printed⟩

/-! Helper lemmas about `findSlash` and list surgery around the separator. -/

/-- Appending after a slash-free block: the first slash of `l ++ '/' :: r`
sits exactly at index `l.length`. -/
theorem findSlash_append {l : List Char} (h : '/' ∉ l) (r : List Char) :
    findSlash (l ++ '/' :: r) = some l.length := by
  induction l with
  | nil => simp [findSlash]
  | cons a as ih =>
    simp only [List.mem_cons, not_or] at h
    have ha : ¬ a = '/' := fun hh => h.1 hh.symm
    simp [findSlash, ha, ih h.2]

/-- Recovering the list from the position `findSlash` reports: the element
at that position is `'/'` and the pieces around it reassemble the list. -/
theorem findSlash_recover {l : List Char} {k : Nat} (h : findSlash l = some k) :
    l.take k ++ '/' :: l.drop (k + 1) = l := by
  induction l generalizing k with
  | nil => simp [findSlash] at h
  | cons a as ih =>
    by_cases ha : a = '/'
    · subst ha
      simp [findSlash] at h
      subst h
      simp
    · simp only [findSlash, ha, if_false, Option.map_eq_some'] at h
      obtain ⟨p, hp, hk⟩ := h
      subst hk
      simp [List.take_succ_cons, List.drop_succ_cons, ih hp]

/-- Dropping past the slash that follows a block: everything after the
separator of `l ++ '/' :: r` is `r`. -/
theorem drop_after_sep (l r : List Char) :
    (l ++ '/' :: r).drop (l.length + 1) = r := by
  have h1 : l ++ '/' :: r = (l ++ ['/']) ++ r := by simp
  have h2 : (l ++ ['/']).length = l.length + 1 := by simp
  rw [h1, ← h2, List.drop_left]

/-- C3: for every route path of the form "/" ++ S ++ "/" ++ R where S
contains no '/', path parsing yields rpc.service = S and rpc.method = R,
with any further '/' characters inside R left intact in the method. -/
theorem parse_path_well_formed (s r : String) (hs : '/' ∉ s.data) :
    parse_path ("/" ++ s ++ "/" ++ r) = (s, r) := by
  have hdata : ("/" ++ s ++ "/" ++ r).data = '/' :: (s.data ++ '/' :: r.data) := by
    simp [String.data_append]
  have hsep : service_method_separator ("/" ++ s ++ "/" ++ r) =
      some (s.data.length + 1) := by
    unfold service_method_separator
    rw [hdata]
    simp [findSlash_append hs]
  unfold parse_path
  rw [hsep, hdata]
  simp [List.take_succ_cons, List.drop_succ_cons, List.take_left]
  refine String.ext ?_
  show (s.data ++ '/' :: r.data).drop (s.data.length + 1) = r.data
  exact drop_after_sep s.data r.data

/-- Witness for C3 at the concrete path "/echo.Echo/Echo". -/
theorem parse_path_well_formed_witness :
    parse_path "/echo.Echo/Echo" = ("echo.Echo", "Echo") := by
  have h := parse_path_well_formed "echo.Echo" "Echo" (by decide)
  simpa using h

/-- C4 counterexample: the claim asserts that the path "/" yields
method = "", but the code takes the no-separator branch there (the tail of
"/" contains no further '/'), so the method is the entire path "/". -/
theorem parse_path_root_cex : ¬ (parse_path "/" = ("", "")) := by decide

/-- C4 (amended): for every path that does not start with '/' or contains
no second '/', parsing yields service = "" and method = the entire path
unchanged; in particular the path "" yields service = "", method = "", and
the path "/" yields service = "" and method = "/". -/
theorem parse_path_fallback :
    (∀ p : String,
      p.data.head? ≠ some '/' ∨ findSlash (p.data.drop 1) = none →
        parse_path p = ("", p)) ∧
    parse_path "" = ("", "") ∧ parse_path "/" = ("", "/") := by
  refine ⟨?_, by decide, by decide⟩
  intro p hp
  have hsep : service_method_separator p = none := by
    unfold service_method_separator
    rcases hd : p.data.head? with _ | c
    · rfl
    · rcases hp with hp | hp
      · have hc : ¬ c = '/' := fun hc => hp (hd.trans (by rw [hc]))
        simp [hc]
      · rw [List.drop_one] at hp
        by_cases hc : c = '/' <;> simp [hc, hp]
  unfold parse_path
  rw [hsep]

/-- Witness for C4 at the concrete no-leading-slash path "x". -/
theorem parse_path_fallback_witness : parse_path "x" = ("", "x") :=
  parse_path_fallback.1 "x" (Or.inl (by decide))

/-- C9 counterexample: the claimed invariant fails twice on the code. The
path "" parses to method = "" (so method is not "never empty"), and for the
successfully parsed path "/a/b" the string service ++ "/" ++ method =
"a/b" is not a prefix of the original path "/a/b". -/
theorem route_invariant_cex :
    (parse_path "").2 = "" ∧
    parse_path "/a/b" = ("a", "b") ∧
    ((parse_path "/a/b").1 ++ "/" ++ (parse_path "/a/b").2).data.isPrefixOf
      "/a/b".data = false := by decide

/-- C9 (amended): when parsing fails, service = "" and method = the entire
path, so method is empty exactly when the path is empty; when parsing
succeeds, "/" ++ service ++ "/" ++ method reconstructs the original path
exactly (and method is empty when nothing follows the separator). -/
theorem route_invariant :
    ∀ p : String,
      (route_parsed p = true →
        "/" ++ (parse_path p).1 ++ "/" ++ (parse_path p).2 = p) ∧
      (route_parsed p = false →
        (parse_path p).1 = "" ∧ (parse_path p).2 = p) := by
  intro p
  constructor
  · intro h
    rcases hpd : p.data with _ | ⟨c, tail⟩
    · exfalso
      rw [route_parsed] at h
      unfold service_method_separator at h
      rw [hpd] at h
      simp at h
    · by_cases hc : c = '/'
      · subst hc
        have hex : ∃ k, findSlash tail = some k := by
          rw [route_parsed] at h
          unfold service_method_separator at h
          rw [hpd] at h
          simp at h
          exact Option.isSome_iff_exists.mp h
        obtain ⟨k, hk⟩ := hex
        have hsep : service_method_separator p = some (k + 1) := by
          unfold service_method_separator
          rw [hpd]
          simp [hk]
        have hparse : parse_path p = (⟨tail.take k⟩, ⟨tail.drop (k + 1)⟩) := by
          unfold parse_path
          rw [hsep, hpd]
          simp [List.take_succ_cons, List.drop_succ_cons]
        rw [hparse]
        refine String.ext ?_
        rw [String.data_append, String.data_append, String.data_append, hpd]
        simp only [List.cons_append, List.nil_append, List.append_assoc]
        show '/' :: (tail.take k ++ '/' :: tail.drop (k + 1)) = '/' :: tail
        rw [findSlash_recover hk]
      · exfalso
        rw [route_parsed] at h
        unfold service_method_separator at h
        rw [hpd] at h
        simp [hc] at h
  · intro h
    have hsep : service_method_separator p = none := by
      rcases hs : service_method_separator p with _ | s
      · rfl
      · rw [route_parsed, hs] at h
        simp at h
    unfold parse_path
    rw [hsep]
    exact ⟨rfl, rfl⟩

/-- Witness for C9 at the concrete paths "/a/b" (parsed) and "x"
(unparseable). -/
theorem route_invariant_witness :
    "/" ++ (parse_path "/a/b").1 ++ "/" ++ (parse_path "/a/b").2 = "/a/b" ∧
    (parse_path "x").1 = "" ∧ (parse_path "x").2 = "x" :=
  ⟨(route_invariant "/a/b").1 (by decide), (route_invariant "x").2 (by decide)⟩

/-- C1: evidence of the code bug at the failing input. A client call whose
inner service returns a response does return it unmodified and records one
histogram observation, but additionally writes the request URI to stdout
(the `println!` at src/client.rs line 96) — an observable state change
beyond the histogram observation, which the claim and the spec ("the only
externally visible side effect is metrics emission") exclude. The server
middleware has no such print. -/
theorem client_call_prints_on_every_call :
    (clientCall (fun _ => 200) none ⟨"/echo.Echo/Echo", .h2, some "peer.local"⟩
        2500000 (Except.ok () : Except Unit Unit)).result = Except.ok () ∧
    (clientCall (fun _ => 200) none ⟨"/echo.Echo/Echo", .h2, some "peer.local"⟩
        2500000 (Except.ok () : Except Unit Unit)).observations.length = 1 ∧
    (clientCall (fun _ => 200) none ⟨"/echo.Echo/Echo", .h2, some "peer.local"⟩
        2500000 (Except.ok () : Except Unit Unit)).printed =
      [("/echo.Echo/Echo", some "peer.local")] :=
  ⟨rfl, rfl, rfl⟩

/-- C2: for every call in which the inner service fails, both wrapped
services propagate the exact error value unchanged and record no histogram
observation (the observation list is empty). -/
theorem call_err_propagates_unmeasured :
    ∀ (ε ρ : Type) (status : ρ → Nat) (req : HttpRequest) (n : Nat)
      (stored : Option String) (e : ε),
      (serverCall status req n (Except.error e : Except ε ρ)).1 =
        Except.error e ∧
      (serverCall status req n (Except.error e : Except ε ρ)).2 = [] ∧
      (clientCall status stored req n (Except.error e : Except ε ρ)).result =
        Except.error e ∧
      (clientCall status stored req n
          (Except.error e : Except ε ρ)).observations =
        [] := by
  intro ε ρ status req n stored e
  exact ⟨rfl, rfl, rfl, rfl⟩

/-- C8: the protocol-version resolver is a total function mapping each of
the five recognized HTTP versions to its display string and any other
version value to no label; being a total Lean function over `Version`, it
never fails. -/
theorem network_protocol_version_table :
    network_protocol_version .http09 = some "0.9" ∧
    network_protocol_version .http10 = some "1.0" ∧
    network_protocol_version .http11 = some "1.1" ∧
    network_protocol_version .h2 = some "2" ∧
    network_protocol_version .h3 = some "3" ∧
    network_protocol_version .other = none :=
  ⟨rfl, rfl, rfl, rfl, rfl, rfl⟩

/-- C10: the recorded histogram value is the elapsed duration truncated to
whole milliseconds: both middlewares record `as_millis n` for an elapsed
time of `n` nanoseconds, `as_millis` is exact truncation (the recorded
value times 10^6 bounds `n` from below and one more millisecond bounds it
strictly from above, so fractional milliseconds are discarded), and any
call completing in under one millisecond records the value 0. -/
theorem recorded_value_truncates_millis :
    ∀ (ε ρ : Type) (status : ρ → Nat) (req : HttpRequest) (n : Nat)
      (stored : Option String) (r : ρ),
      (serverCall status req n (Except.ok r : Except ε ρ)).2.map
        Observation.valueMillis = [as_millis n] ∧
      (clientCall status stored req n
          (Except.ok r : Except ε ρ)).observations.map
        Observation.valueMillis = [as_millis n] ∧
      as_millis n * 1000000 ≤ n ∧
      n < (as_millis n + 1) * 1000000 ∧
      (n < 1000000 → as_millis n = 0) := by
  intro ε ρ status req n stored r
  refine ⟨rfl, rfl, ?_, ?_, ?_⟩ <;> simp [as_millis] <;> omega

/-- Witness for C10: a 999999-nanosecond call records the value 0. -/
theorem recorded_value_truncates_millis_witness :
    (serverCall (fun _ => 200) ⟨"/a/b", .h2, none⟩ 999999
        (Except.ok () : Except Unit Unit)).2.map Observation.valueMillis =
      [as_millis 999999] ∧ as_millis 999999 = 0 :=
  ⟨(recorded_value_truncates_millis Unit Unit (fun _ => 200)
      ⟨"/a/b", .h2, none⟩ 999999 none ()).1,
   (recorded_value_truncates_millis Unit Unit (fun _ => 200)
      ⟨"/a/b", .h2, none⟩ 999999 none ()).2.2.2.2 (by decide)⟩

/-- Every list is a Boolean prefix of itself followed by anything. -/
theorem isPrefixOf_append_self (l m : List Char) :
    l.isPrefixOf (l ++ m) = true := by
  induction l with
  | nil => simp [List.isPrefixOf]
  | cons a as ih => simp [List.isPrefixOf, ih]

/-- C7: the client middleware's server.address value. A construction-time
address has a leading "http://" or "https://" stripped exactly once (the
result is used verbatim, with no further normalization, even if it still
carries a scheme prefix of its own) and is then used for every call
regardless of the request host; with no construction-time address the value
is the request URI host, or the literal "unknown" when the host is
absent. -/
theorem server_address_resolution :
    (∀ s : String, canonicalize_addr ("http://" ++ s) = s) ∧
    (∀ s : String, canonicalize_addr ("https://" ++ s) = s) ∧
    (∀ s : String,
      "http://".data.isPrefixOf s.data = false →
      "https://".data.isPrefixOf s.data = false →
        canonicalize_addr s = s) ∧
    (∀ (raw : String) (h : Option String),
      resolve_server_address (with_server_address (some raw)) h =
        canonicalize_addr raw) ∧
    (∀ h : String,
      resolve_server_address (with_server_address none) (some h) = h) ∧
    resolve_server_address (with_server_address none) none = "unknown" := by
  refine ⟨?_, ?_, ?_, ?_, ?_, rfl⟩
  · intro s
    have hp : "http://".data.isPrefixOf ("http://" ++ s).data = true := by
      rw [String.data_append]
      exact isPrefixOf_append_self _ _
    rw [canonicalize_addr, if_pos hp, String.data_append]
    exact String.ext (by simp)
  · intro s
    have hp : "http://".data.isPrefixOf ("https://" ++ s).data = false := by
      rw [String.data_append]
      simp [List.isPrefixOf]
    have hp2 : "https://".data.isPrefixOf ("https://" ++ s).data = true := by
      rw [String.data_append]
      exact isPrefixOf_append_self _ _
    rw [canonicalize_addr, hp, if_neg (by simp), if_pos hp2,
      String.data_append]
    exact String.ext (by simp)
  · intro s h1 h2
    rw [canonicalize_addr, h1, h2]
    simp
  · intro raw h
    rfl
  · intro h
    rfl

/-- Witness for C7 at concrete addresses: a scheme-free address is kept as
is, and the spec's example canonicalization and fallbacks hold. -/
theorem server_address_resolution_witness :
    canonicalize_addr "api.example.com:443" = "api.example.com:443" ∧
    canonicalize_addr ("https://" ++ "api.example.com:443") =
      "api.example.com:443" ∧
    resolve_server_address (with_server_address none) (some "peer.local") =
      "peer.local" :=
  ⟨server_address_resolution.2.2.1 "api.example.com:443" (by decide)
      (by decide),
   server_address_resolution.2.1 "api.example.com:443",
   server_address_resolution.2.2.2.2.1 "peer.local"⟩

/-- Combined error predicate of the source's label condition: it holds
exactly on the 4xx and 5xx range. -/
theorem err_range_iff (st : Nat) :
    (is_client_error st || is_server_error st) = true ↔
      400 ≤ st ∧ st < 600 := by
  simp [is_client_error, is_server_error]
  omega

/-- Display string of a status is never its bare numeric code: it always
carries a space and a reason phrase (or placeholder) after the number. -/
theorem status_display_ne_code (st : Nat) : status_display st ≠ toString st := by
  intro hcontra
  have hlen := congrArg String.length hcontra
  unfold status_display at hlen
  rw [String.length_append, String.length_append] at hlen
  have hone : (" " : String).length = 1 := rfl
  omega

/-- C5: an error.type entry appears in the label set if and only if the
status code is in the 4xx or 5xx range, and when present its value is the
status's canonical display string; for 2xx statuses no error.type label is
present, and the display string is never the bare numeric code. -/
theorem error_type_labeling :
    ∀ (m s a : String) (v : Option String) (st : Nat),
      (List.lookup "error.type" (server_labels m s v st) =
        if 400 ≤ st ∧ st < 600 then some (status_display st) else none) ∧
      (List.lookup "error.type" (client_labels m s a v st) =
        if 400 ≤ st ∧ st < 600 then some (status_display st) else none) ∧
      (200 ≤ st ∧ st < 300 →
        List.lookup "error.type" (server_labels m s v st) = none ∧
        List.lookup "error.type" (client_labels m s a v st) = none) ∧
      status_display st ≠ toString st := by
  intro m s a v st
  by_cases herr : 400 ≤ st ∧ st < 600
  · have hb : (is_client_error st || is_server_error st) = true :=
      (err_range_iff st).mpr herr
    refine ⟨?_, ?_, ?_, status_display_ne_code st⟩
    · rcases v with _ | vv <;>
        simp +decide [server_labels, hb, herr, List.lookup]
    · rcases v with _ | vv <;>
        simp +decide [client_labels, hb, herr, List.lookup]
    · intro h2xx
      exfalso
      omega
  · have hb : (is_client_error st || is_server_error st) = false := by
      rw [Bool.eq_false_iff]
      intro hx
      exact herr ((err_range_iff st).mp hx)
    refine ⟨?_, ?_, ?_, status_display_ne_code st⟩
    · rcases v with _ | vv <;>
        simp +decide [server_labels, hb, herr, List.lookup]
    · rcases v with _ | vv <;>
        simp +decide [client_labels, hb, herr, List.lookup]
    · intro h2xx
      constructor <;> rcases v with _ | vv <;>
        simp +decide [server_labels, client_labels, hb, List.lookup]

/-- Witness for C5 at concrete statuses 204 (no error label) and 404
(labeled). -/
theorem error_type_labeling_witness :
    List.lookup "error.type" (server_labels "m" "s" none 204) = none ∧
    List.lookup "error.type" (server_labels "m" "s" none 404) =
      (if 400 ≤ 404 ∧ 404 < 600 then some (status_display 404) else none) :=
  ⟨((error_type_labeling "m" "s" "a" none 204).2.2.1 (by decide)).1,
   (error_type_labeling "m" "s" "a" none 404).1⟩

/-- C6: both label sets always carry rpc.system="grpc",
network.protocol.name="http", network.transport="tcp", rpc.method and
rpc.service; the keys appear in the fixed order
system/protocol-name/transport, then method/service, then (client only)
server.address, then network.protocol.version exactly when the version is
resolvable, then error.type exactly for 4xx/5xx statuses; the key lists are
duplicate-free and server.address never appears server-side. -/
theorem label_schema :
    ∀ (m s a : String) (v : Option String) (st : Nat),
      ((server_labels m s v st).map Prod.fst =
        ["rpc.system", "network.protocol.name", "network.transport",
         "rpc.method", "rpc.service"]
        ++ (if v.isSome then ["network.protocol.version"] else [])
        ++ (if 400 ≤ st ∧ st < 600 then ["error.type"] else [])) ∧
      ((client_labels m s a v st).map Prod.fst =
        ["rpc.system", "network.protocol.name", "network.transport",
         "rpc.method", "rpc.service", "server.address"]
        ++ (if v.isSome then ["network.protocol.version"] else [])
        ++ (if 400 ≤ st ∧ st < 600 then ["error.type"] else [])) ∧
      ((server_labels m s v st).map Prod.fst).Nodup ∧
      ((client_labels m s a v st).map Prod.fst).Nodup ∧
      ("rpc.system", "grpc") ∈ server_labels m s v st ∧
      ("network.protocol.name", "http") ∈ server_labels m s v st ∧
      ("network.transport", "tcp") ∈ server_labels m s v st ∧
      ("rpc.method", m) ∈ server_labels m s v st ∧
      ("rpc.service", s) ∈ server_labels m s v st ∧
      ("rpc.system", "grpc") ∈ client_labels m s a v st ∧
      ("network.protocol.name", "http") ∈ client_labels m s a v st ∧
      ("network.transport", "tcp") ∈ client_labels m s a v st ∧
      ("rpc.method", m) ∈ client_labels m s a v st ∧
      ("rpc.service", s) ∈ client_labels m s a v st ∧
      ("server.address", a) ∈ client_labels m s a v st ∧
      "server.address" ∉ (server_labels m s v st).map Prod.fst := by
  intro m s a v st
  by_cases herr : 400 ≤ st ∧ st < 600
  · have hb : (is_client_error st || is_server_error st) = true :=
      (err_range_iff st).mpr herr
    rcases v with _ | vv <;>
      simp +decide [server_labels, client_labels, hb, herr]
  · have hb : (is_client_error st || is_server_error st) = false := by
      rw [Bool.eq_false_iff]
      intro hx
      exact herr ((err_range_iff st).mp hx)
    rcases v with _ | vv <;>
      simp +decide [server_labels, client_labels, hb, herr]

/-- Witness for C6: the server-side key list at a concrete call carries no
server.address key. -/
theorem label_schema_witness :
    "server.address" ∉
      (server_labels "Echo" "echo.Echo" (some "2") 200).map Prod.fst :=
  (label_schema "Echo" "echo.Echo" "h" (some "2")
      200).2.2.2.2.2.2.2.2.2.2.2.2.2.2.2

end TonicMetrics
